import Mathlib

/-!
Verification development for the Nuitka code-generation core: a shallow
embedding of `nuitka/transform/optimizations/OptimizeRaises.py` (the
raise-propagation optimizer) and of `nuitka/codegen/CodeGeneration.py`
(the tree-to-text code generator), together with theorems settling the
specification claims about them.

Modelling conventions:
  - Node-kind predicates (`isExpressionBuiltinExceptionRef`, `isStatementRaiseException`,
    `isExpressionClassBody`, ...) become constructor tests on small inductive types
    whose constructors mirror exactly the node kinds the embedded functions inspect;
    all remaining node kinds are collapsed into an `other` constructor.
  - Machine-level strings stay `String`; the Python string helpers used by the
    source (`startswith`, `endswith`, `split`, `strip`) are re-implemented over
    the character list so that every definition kernel-evaluates on concrete input.
  - Emission-layer calls (`Generator.*`) are data constructors recording which
    emission call was made and with which already-translated children, since the
    claims are about which call is emitted, not about the target text itself.
-/

/-! ## Raise-propagation optimizer: exception expressions and matching
Embedding of `OptimizeRaisesVisitor.matchesException`
(`nuitka/transform/optimizations/OptimizeRaises.py`, lines 184-207). -/

/-- Exception-type expressions as inspected by `matchesException`: a builtin
exception reference node, a builtin make-exception call node, or any other
expression kind (unresolvable for matching purposes). -/
inductive ExcExpr
  | builtinExceptionRef (exception_name : String)
  | builtinMakeException (exception_name : String)
  | otherExc
deriving DecidableEq

/-- Node predicate `isExpressionBuiltinExceptionRef`. -/
def ExcExpr.isExpressionBuiltinExceptionRef : ExcExpr → Bool
  | .builtinExceptionRef _ => true
  | _ => false

/-- Node predicate `isExpressionBuiltinMakeException`. -/
def ExcExpr.isExpressionBuiltinMakeException : ExcExpr → Bool
  | .builtinMakeException _ => true
  | _ => false

/-- Accessor `getExceptionName`; only queried on the two builtin constructors. -/
def ExcExpr.getExceptionName : ExcExpr → String
  | .builtinExceptionRef n => n
  | .builtinMakeException n => n
  | .otherExc => ""

/-- Body of the `for catched_exception in catched_exceptions` loop of
`matchesException`: the two name-equality tests of lines 192-203. -/
def catchedMatchesRaised (catched_exception raised_exception : ExcExpr) : Bool :=
  (catched_exception.isExpressionBuiltinExceptionRef
      && raised_exception.isExpressionBuiltinExceptionRef
      && (catched_exception.getExceptionName == raised_exception.getExceptionName))
    || (catched_exception.isExpressionBuiltinExceptionRef
      && raised_exception.isExpressionBuiltinMakeException
      && (catched_exception.getExceptionName == raised_exception.getExceptionName))

/-- `OptimizeRaisesVisitor.matchesException` (lines 184-207).  The Python
tri-state `True` / `False` / `None` becomes `some true` / `some false` / `none`.
A `None` list of catched exceptions is a bare `except:` clause and returns
`some true`; otherwise the loop returns `some true` at the first name match and
falls through to `none`. -/
def matchesException (catched_exceptions : Option (List ExcExpr))
    (raised_exception : Option ExcExpr) : Option Bool :=
  match catched_exceptions with
  | none => some true
  | some catched =>
    match raised_exception with
    | none => none
    | some raised =>
      if catched.any (fun c => catchedMatchesRaised c raised) then some true else none

/-! ## Raise-propagation optimizer: the statement-sequence visit
Embedding of the `isStatementRaiseException` branch of
`OptimizeRaisesVisitor.onEnterNode` (lines 65-135).  A statement sequence is
a list of statements; statements other than raise statements are opaque at
this level (their own subtrees are handled by other visits). -/

/-- Statements of a statement sequence, as inspected by `onEnterNode`:
an unconditional raise statement carrying its `getExceptionType` result,
or any other statement kind. -/
inductive OStmt
  | raiseStmt (exception_type : Option ExcExpr)
  | otherStmt (tag : Nat)
deriving DecidableEq

/-- Node predicate `isStatementRaiseException`. -/
def OStmt.isStatementRaiseException : OStmt → Bool
  | .raiseStmt _ => true
  | _ => false

/-- An exception handler of a try/except statement: `getExceptionTypes` is
`none` for a bare `except:` clause. -/
structure ExceptionHandler where
  exception_types : Option (List ExcExpr)
deriving DecidableEq

/-- The kind of `node.parent.parent` used at line 81: either a try/except
statement (with its handler list) or any other node kind. -/
inductive SeqParent
  | tryExceptParent (handlers : List ExceptionHandler)
  | otherParent
deriving DecidableEq

/-- Outcome of one visitor entry: `noChange` when `onEnterNode` returns without
mutating; `changed new_statements` when the sequence was trimmed, which in the
source is `trimStatements` + `signalChange` + `raise RestartVisit`; `assertFailed`
for the `assert False` of line 129 (the `match is False` branch). -/
inductive VisitOutcome
  | noChange
  | changed (new_statements : List OStmt)
  | assertFailed
deriving DecidableEq

/-- The `for handler in node.parent.parent.getExceptionHandlers()` loop of
lines 83-129: `match is True` returns from `onEnterNode` (the replacement code
behind it, lines 92-127, is unreachable after the bare `return`); `match is
False` hits `assert False`; otherwise the next handler is tried. -/
def scanHandlers (raised : Option ExcExpr) : List ExceptionHandler → VisitOutcome
  | [] => .noChange
  | handler :: rest =>
    match matchesException handler.exception_types raised with
    | some true => .noChange
    | some false => .assertFailed
    | none => scanHandlers raised rest

/-- Visit of one raise statement whose parent is a statement sequence
(lines 65-131).  `stmts_before` / `stmts_after` are the statements around the
node in its parent sequence.  If the node is not last, the sequence is trimmed
to everything up to and including the node.  Modelled from the spec: the node
method `trimStatements` (not under `src/`) drops every following statement,
per spec Rule B ("every following statement in that sequence is unreachable
and is dropped"). -/
def onEnterStatementRaise (stmts_before : List OStmt) (exception_type : Option ExcExpr)
    (stmts_after : List OStmt) (grandparent : SeqParent) : VisitOutcome :=
  match stmts_after with
  | _ :: _ => .changed (stmts_before ++ [.raiseStmt exception_type])
  | [] =>
    match grandparent with
    | .tryExceptParent handlers =>
      match stmts_before with
      | [] => scanHandlers exception_type handlers
      | _ :: _ => .noChange
    | .otherParent => .noChange

/-- One traversal of a statement sequence by `OptimizeRaisesVisitor`:
statements are entered in order; the first entry that mutates (or asserts)
ends the traversal, matching the `raise RestartVisit` restart discipline.
Non-raise statements produce no sequence-level action. -/
def visitSequence (grandparent : SeqParent) (visited : List OStmt) :
    List OStmt → VisitOutcome
  | [] => .noChange
  | .raiseStmt r :: rest =>
    match onEnterStatementRaise visited r rest grandparent with
    | .noChange => visitSequence grandparent (visited ++ [.raiseStmt r]) rest
    | outcome => outcome
  | .otherStmt t :: rest => visitSequence grandparent (visited ++ [.otherStmt t]) rest

/-! ## Raise-propagation optimizer: `trimEvaluation`
Embedding of `OptimizeRaisesVisitor.trimEvaluation` (lines 137-182) for an
expression parent (the `node.isExpression()` branch; the claim's operation
node case).  The result expression that `node.replaceWith` installs is
returned; `none` stands for the `assert False` of line 147 (no raising
child found). -/

/-- Expression operands as iterated by `getVisitableNodes`: a raise-exception
expression carrying its already-attached side effects, or an ordinary operand
with an explicit may-have-side-effects flag. -/
inductive OExpr
  | raiseExceptionExpr (exception_name : String) (side_effects : List OExpr)
  | operandExpr (tag : Nat) (has_side_effects : Bool)

/-- Node predicate `isExpressionRaiseException`. -/
def OExpr.isExpressionRaiseException : OExpr → Bool
  | .raiseExceptionExpr _ _ => true
  | _ => false

/-- Modelled from the spec: the node method `mayHaveSideEffects` is not under
`src/`; per spec Rule A a preceding operand with side effects must be kept, so
an operand carries the flag explicitly and a raise expression always has
effects. -/
def OExpr.mayHaveSideEffects : OExpr → Bool
  | .raiseExceptionExpr _ _ => true
  | .operandExpr _ h => h

/-- Modelled from the spec: the node method `addSideEffects` is not under
`src/`; per spec Rule A the carried side effects are preserved "for
order-preserving evaluation", evaluated in order before the exception is
signaled, so they are appended to the raise expression's side-effect list. -/
def OExpr.addSideEffects : OExpr → List OExpr → OExpr
  | .raiseExceptionExpr n se, more => .raiseExceptionExpr n (se ++ more)
  | e, _ => e

/-- The `for child in old_children` loop of lines 141-147: children strictly
before the first raising child, paired with that raising child; `none` when no
child raises (the `for`/`else` `assert False`). -/
def splitAtRaise : List OExpr → Option (List OExpr × OExpr)
  | [] => none
  | child :: rest =>
    if child.isExpressionRaiseException then some ([], child)
    else
      match splitAtRaise rest with
      | none => none
      | some (pre, r) => some (child :: pre, r)

/-- `OptimizeRaisesVisitor.trimEvaluation` on an expression node, returning the
replacement expression: the raising child, with the side-effecting preceding
children attached (lines 149-166). -/
def trimEvaluation (children : List OExpr) : Option OExpr :=
  match splitAtRaise children with
  | none => none
  | some (pre, raise_exception) =>
    match pre.filter OExpr.mayHaveSideEffects with
    | [] => some raise_exception
    | side_effects => some (raise_exception.addSideEffects side_effects)

/-! ## Code generator: attribute name mangling
Embedding of `mangleAttributeName` (`nuitka/codegen/CodeGeneration.py`,
lines 51-71).  The upward `getParent` walk is represented by the list of
successive ancestors of the node, innermost first. -/

/-- Ancestor node kinds inspected by the mangling walk: a class body node
(`isExpressionClassBody`, with its `getName`), a function body node
(`isExpressionFunctionBody`), or any other node kind. -/
inductive TreeAncestor
  | classBody (class_name : String)
  | functionBody
  | otherNode
deriving DecidableEq

/-- Node predicate `isExpressionClassBody`. -/
def TreeAncestor.isExpressionClassBody : TreeAncestor → Bool
  | .classBody _ => true
  | _ => false

/-- Node predicate `isExpressionFunctionBody`. -/
def TreeAncestor.isExpressionFunctionBody : TreeAncestor → Bool
  | .functionBody => true
  | _ => false

/-- Python `s.startswith(pre)`, computed on the character list so it
kernel-evaluates. -/
def strStartsWith (s pre : String) : Bool := pre.data.isPrefixOf s.data

/-- Python `s.endswith(suf)`, computed on the character list. -/
def strEndsWith (s suf : String) : Bool := suf.data.isSuffixOf s.data

/-- The `while node is not None` walk of lines 55-69, carrying the
`seen_function` flag: at the first class body the result is decided (mangled
exactly when `seen_function` is set); a function body sets the flag; running
out of parents returns the name unchanged. -/
def mangleWalk (attribute_name : String) (seen_function : Bool) :
    List TreeAncestor → String
  | [] => attribute_name
  | .classBody class_name :: _ =>
    if seen_function then "_" ++ class_name ++ attribute_name else attribute_name
  | .functionBody :: rest => mangleWalk attribute_name true rest
  | .otherNode :: rest => mangleWalk attribute_name seen_function rest

/-- `mangleAttributeName` (lines 51-71): names that do not start with `__` or
that end with `__` are returned unchanged; otherwise the parent walk decides. -/
def mangleAttributeName (attribute_name : String) (ancestors : List TreeAncestor) :
    String :=
  if ! strStartsWith attribute_name "__" || strEndsWith attribute_name "__" then
    attribute_name
  else
    mangleWalk attribute_name false ancestors

/-! ## Code generator: tuple / list / dict / set literal creation
Embedding of `generateTupleCreationCode` (lines 73-88),
`generateListCreationCode` (lines 90-105), `generateDictionaryCreationCode`
(lines 415-448), `generateSetCreationCode` (lines 450-459) and
`_areConstants` (lines 461-469). -/

/-- Constant values carried by constant-reference nodes (`getConstant`). -/
inductive Constant
  | intConst (n : Int)
  | strConst (s : String)
  | boolConst (b : Bool)
  | noneConst
deriving DecidableEq

/-- Aggregate constants assembled by the constant short-circuit paths and
passed to `Generator.getConstantHandle`. -/
inductive AggConstant
  | tupleConst (cs : List Constant)
  | listConst (cs : List Constant)
  | dictConst (entries : List (Constant × Constant))
deriving DecidableEq

/-- Element expressions of a literal node: a constant reference node (with the
`isMutable` answer of its constant recorded explicitly, since mutability is
decided by the node from its constant's type) or any non-constant expression. -/
inductive CGExpr
  | constantRef (value : Constant) (is_mutable : Bool)
  | nonConstant (tag : Nat)
deriving DecidableEq

/-- Node predicate `isExpressionConstantRef`. -/
def CGExpr.isExpressionConstantRef : CGExpr → Bool
  | .constantRef _ _ => true
  | .nonConstant _ => false

/-- Node predicate `isMutable`. -/
def CGExpr.isMutable : CGExpr → Bool
  | .constantRef _ m => m
  | .nonConstant _ => false

/-- Accessor `getConstant`; only queried on constant reference nodes. -/
def CGExpr.getConstant : CGExpr → Constant
  | .constantRef v _ => v
  | .nonConstant _ => .noneConst

/-- `_areConstants` (lines 461-469): every expression is a constant reference
and none of them is mutable. -/
def _areConstants : List CGExpr → Bool
  | [] => true
  | e :: rest =>
    if ! e.isExpressionConstantRef then false
    else if e.isMutable then false
    else _areConstants rest

/-- The emission call produced for a literal node, with its already-translated
children; identifiers of non-constant elements are represented by the element
expressions themselves (`generateExpressionsCode` is the emission layer's
per-element translation and is kept opaque). -/
inductive GenOutput
  | getConstantHandle (constant : AggConstant)
  | getTupleCreationCode (element_identifiers : List CGExpr)
  | getListCreationCode (element_identifiers : List CGExpr)
  | getDictionaryCreationCode (keys values : List CGExpr)
  | getSetCreationCode (element_identifiers : List CGExpr)
deriving DecidableEq

/-- Whether an emission is the single constant-handle call. -/
def GenOutput.isConstantHandle : GenOutput → Bool
  | .getConstantHandle _ => true
  | _ => false

/-- `generateTupleCreationCode` (lines 73-88). -/
def generateTupleCreationCode (elements : List CGExpr) : GenOutput :=
  if _areConstants elements then
    .getConstantHandle (.tupleConst (elements.map CGExpr.getConstant))
  else
    .getTupleCreationCode elements

/-- `generateListCreationCode` (lines 90-105). -/
def generateListCreationCode (elements : List CGExpr) : GenOutput :=
  if _areConstants elements then
    .getConstantHandle (.listConst (elements.map CGExpr.getConstant))
  else
    .getListCreationCode elements

/-- Python dict insertion with overwrite on an existing key, preserving
insertion order (used to build the constant dictionary of lines 424-427). -/
def dictUpdate : List (Constant × Constant) → Constant → Constant →
    List (Constant × Constant)
  | [], k, v => [(k, v)]
  | (k0, v0) :: rest, k, v =>
    if k0 = k then (k0, v) :: rest else (k0, v0) :: dictUpdate rest k v

/-- The `for key, value in zip(keys, values)` dict-building loop of
lines 424-427. -/
def buildConstantDict (keys values : List Constant) : List (Constant × Constant) :=
  (keys.zip values).foldl (fun d kv => dictUpdate d kv.1 kv.2) []

/-- `generateDictionaryCreationCode` (lines 415-448); a pair node contributes
`getKey` and `getValue`, modelled as the two components. -/
def generateDictionaryCreationCode (pairs : List (CGExpr × CGExpr)) : GenOutput :=
  if _areConstants (pairs.map Prod.fst) && _areConstants (pairs.map Prod.snd) then
    .getConstantHandle (.dictConst (buildConstantDict
      ((pairs.map Prod.fst).map CGExpr.getConstant)
      ((pairs.map Prod.snd).map CGExpr.getConstant)))
  else
    .getDictionaryCreationCode (pairs.map Prod.fst) (pairs.map Prod.snd)

/-- `generateSetCreationCode` (lines 450-459): unconditionally an
element-by-element `Generator.getSetCreationCode` emission — the source has no
constant short-circuit for sets. -/
def generateSetCreationCode (elements : List CGExpr) : GenOutput :=
  .getSetCreationCode elements

/-! ## Code generator: slice lookup path choice
Embedding of `decideSlicing` (lines 523-526) and the path dispatch of
`generateSliceLookupCode` (lines 528-582).  The module global
`_slicing_available = Utils.getPythonVersion() < 300` (line 521) is a
parameter. -/

/-- Constant values of slice bound nodes: an integer number constant, or a
constant of non-number type. -/
inductive PySliceConst
  | intConst (n : Int)
  | nonNumberConst
deriving DecidableEq

/-- `Constants.isNumberConstant` restricted to the constants modelled here. -/
def isNumberConstant : PySliceConst → Bool
  | .intConst _ => true
  | .nonNumberConst => false

/-- Python `int(value)`; only applied to number constants. -/
def pyInt : PySliceConst → Int
  | .intConst n => n
  | .nonNumberConst => 0

/-- The local `isSmallNumberConstant` of `generateSliceRangeIdentifier`
(lines 472-478): a number constant with `abs(int(value)) < 2**63-1`. -/
def isSmallNumberConstant (value : PySliceConst) : Bool :=
  if isNumberConstant value then decide ((pyInt value).natAbs < 2 ^ 63 - 1) else false

/-- A present slice bound expression: a constant reference node or any other
expression. -/
inductive SliceBound
  | constantRef (value : PySliceConst)
  | otherBound
deriving DecidableEq

/-- Modelled from the spec: the node method `isIndexable` (not under `src/`)
holds, per spec §4.1, when the bound is a "statically small integer constant
(magnitude under 2^63−1)". -/
def SliceBound.isIndexable : SliceBound → Bool
  | .constantRef v => isSmallNumberConstant v
  | .otherBound => false

/-- `decideSlicing` (lines 523-526): native slicing is available and each bound
is absent (`None`) or indexable. -/
def decideSlicing (slicing_available : Bool) (lower upper : Option SliceBound) :
    Bool :=
  slicing_available
    && (match lower with | none => true | some l => l.isIndexable)
    && (match upper with | none => true | some u => u.isIndexable)

/-- The three emission paths of `generateSliceLookupCode`: the indexed fast
path, the generic slice path, and the slice-object subscript path used when
native slicing is unavailable. -/
inductive SliceEmission
  | getSliceLookupIndexesCode
  | getSliceLookupCode
  | getSubscriptLookupCode
deriving DecidableEq

/-- The path dispatch of `generateSliceLookupCode` (lines 528-582). -/
def generateSliceLookupCode (slicing_available : Bool)
    (lower upper : Option SliceBound) : SliceEmission :=
  if decideSlicing slicing_available lower upper then
    .getSliceLookupIndexesCode
  else if slicing_available then
    .getSliceLookupCode
  else
    .getSubscriptLookupCode

/-- A bound is absent or a small integer constant — the spec-side condition of
claim C6, stated independently of `isIndexable`. -/
def SmallIndexBound (b : Option SliceBound) : Prop :=
  b = none
    ∨ ∃ n : Int, b = some (SliceBound.constantRef (PySliceConst.intConst n))
        ∧ n.natAbs < 2 ^ 63 - 1

/-! ## Code generator: try/except fast path
Embedding of the fast-path predicate of `generateTryExceptCode`
(lines 1386-1479): the early `return` of lines 1395-1444 fires exactly on the
next1/StopIteration shape; everything else reaches the generic
`Generator.getTryExceptCode` emission of lines 1446-1479. -/

/-- Expressions inspected by the try/except fast-path test: a builtin `next`
with one argument (recording whether its iterated value
`source.getValue().mayRaiseException(BaseException)`), a builtin exception
reference (the catched type), or any other expression. -/
inductive TryExpr
  | builtinNext1 (value_may_raise : Bool)
  | builtinExceptionRef (exception_name : String)
  | otherTryExpr
deriving DecidableEq

/-- Tried-block statements: a variable assignment with its `getAssignSource`
expression, or any other statement kind. -/
inductive TriedStmt
  | assignmentVariable (assign_source : TryExpr)
  | otherTried (tag : Nat)
deriving DecidableEq

/-- One exception handler as inspected by `generateTryExceptCode`:
`getExceptionTypes` and whether `getExceptionBranch().isStatementAbortative()`. -/
structure TryHandler where
  exception_types : List TryExpr
  branch_is_abortative : Bool
deriving DecidableEq

/-- A try/except statement: the tried block's statements and the handlers. -/
structure TryExceptStmt where
  tried_statements : List TriedStmt
  handlers : List TryHandler
deriving DecidableEq

/-- Which emission `generateTryExceptCode` produces: the compact inline
fetch-or-branch template of lines 1419-1444, or the generic try/except path. -/
inductive TryExceptEmission
  | next1FastPath
  | genericTryExcept
deriving DecidableEq

/-- The dispatch of `generateTryExceptCode` (lines 1386-1479), with every
`len(...) == 1` test and node-kind test in source order. -/
def generateTryExceptCode (statement : TryExceptStmt) : TryExceptEmission :=
  match statement.tried_statements with
  | [tried_statement] =>
    match tried_statement with
    | .assignmentVariable assign_source =>
      match assign_source with
      | .builtinNext1 value_may_raise =>
        if value_may_raise then .genericTryExcept
        else
          match statement.handlers with
          | [handler] =>
            match handler.exception_types with
            | [catched_type] =>
              match catched_type with
              | .builtinExceptionRef exception_name =>
                if exception_name == "StopIteration" then
                  if handler.branch_is_abortative then .next1FastPath
                  else .genericTryExcept
                else .genericTryExcept
              | _ => .genericTryExcept
            | _ => .genericTryExcept
          | _ => .genericTryExcept
      | _ => .genericTryExcept
    | _ => .genericTryExcept
  | _ => .genericTryExcept

/-! ## Code generator: statement sequence assembly
Embedding of `generateStatementSequenceCode` (lines 1861-1909) together with
the whitespace assertion of `generateStatementCode` (lines 1856-1857).
Statements are represented by their already-generated code text plus their
source line; `Generator.getLineNumberCode` belongs to the out-of-scope
emission layer and is a parameter; `Options.shallTraceExecution()` is
modelled as off (the default).  `none` models an `AssertionError`. -/

/-- The newline character. -/
def nlChar : Char := Char.ofNat 10

/-- Python `code.split("\n")` on the character list: maximal newline-free
segments, with empty segments kept. -/
def splitLinesList : List Char → List (List Char)
  | [] => [[]]
  | c :: rest =>
    if c = nlChar then [] :: splitLinesList rest
    else
      match splitLinesList rest with
      | [] => [[c]]
      | line :: lines => (c :: line) :: lines

/-- Python `code.split("\n")` on strings. -/
def splitLines (code : String) : List String :=
  (splitLinesList code.data).map (fun cs => String.mk cs)

/-- Python whitespace as recognised by `str.strip()`. -/
def isPySpace (c : Char) : Bool :=
  c = Char.ofNat 32 || c = Char.ofNat 9 || c = Char.ofNat 10
    || c = Char.ofNat 13 || c = Char.ofNat 11 || c = Char.ofNat 12

/-- Python `code.strip()`. -/
def pyStrip (s : String) : String :=
  String.mk (((s.data.dropWhile isPySpace).reverse.dropWhile isPySpace).reverse)

/-- A line whose `strip()` is empty. -/
def isBlankLine (s : String) : Bool := pyStrip s == ""

/-- A statement as consumed by `generateStatementSequenceCode`: the code text
returned for it by `generateStatementCode`, and its source line
(`getSourceReference`). -/
structure GenStmt where
  code : String
  source_line : Nat
deriving DecidableEq

/-- The `code = getLineNumberCode(...) + code` prefixing of lines 1894-1898:
applied when the statement's source reference differs from `last_ref`. -/
def statementFullCode (lineNumberCode : Nat → String) (last_ref : Option Nat)
    (s : GenStmt) : String :=
  if some s.source_line ≠ last_ref then lineNumberCode s.source_line ++ s.code
  else s.code

/-- The `codes += statement_codes` accumulation, threaded through the optional
assertion failure of the rest of the loop. -/
def appendStatementCodes (statement_codes : List String) :
    Option (List String) → Option (List String)
  | none => none
  | some codes => some (statement_codes ++ codes)

/-- `generateStatementSequenceCode` (lines 1861-1909): per statement, the
whitespace assertion of `generateStatementCode` (line 1856), the skip of empty
code (line 1891), the line-number prefix (lines 1894-1900), the split into
lines (line 1902) and the two blank-line assertions on the first and last
split line (lines 1904-1905). -/
def generateStatementSequenceCode (lineNumberCode : Nat → String) :
    Option Nat → List GenStmt → Option (List String)
  | _, [] => some []
  | last_ref, s :: rest =>
    if pyStrip s.code ≠ s.code then none
    else if s.code = "" then generateStatementSequenceCode lineNumberCode last_ref rest
    else if isBlankLine ((splitLines (statementFullCode lineNumberCode last_ref s)).headD "") then
      none
    else if isBlankLine ((splitLines (statementFullCode lineNumberCode last_ref s)).getLastD "") then
      none
    else
      appendStatementCodes (splitLines (statementFullCode lineNumberCode last_ref s))
        (generateStatementSequenceCode lineNumberCode (some s.source_line) rest)

/-! ## Theorems -/

/-- Helper: `matchesException` never produces the definite-false answer — every
return statement of the source yields `True` or `None`. -/
theorem matchesException_ne_some_false (catched : Option (List ExcExpr))
    (raised : Option ExcExpr) : matchesException catched raised ≠ some false := by
  cases catched with
  | none => simp [matchesException]
  | some l =>
    cases raised with
    | none => simp [matchesException]
    | some r =>
      simp only [matchesException]
      split <;> simp

/-- Helper: the handler scan of `onEnterNode` always falls through to a plain
return — no handler can produce the `assert False` branch and the `match is
True` branch returns before rewriting. -/
theorem scanHandlers_eq_noChange (raised : Option ExcExpr)
    (handlers : List ExceptionHandler) :
    scanHandlers raised handlers = VisitOutcome.noChange := by
  induction handlers with
  | nil => rfl
  | cons h rest ih =>
    rcases hm : matchesException h.exception_types raised with _ | b
    · simpa [scanHandlers, hm] using ih
    · cases b with
      | false => exact absurd hm (matchesException_ne_some_false _ _)
      | true => simp [scanHandlers, hm]

/-- C10: for every pair of inputs, `matchesException` returns only `True` or
`None`, never `False`; in particular a bare `except` (`None` catched list)
returns `True`; consequently the `assert False` branch of `onEnterNode`
guarded by `match is False` is unreachable for every handler list. -/
theorem matchesException_never_false (catched : Option (List ExcExpr))
    (raised : Option ExcExpr) (handlers : List ExceptionHandler) :
    matchesException catched raised ≠ some false
      ∧ matchesException none raised = some true
      ∧ scanHandlers raised handlers ≠ VisitOutcome.assertFailed := by
  refine ⟨matchesException_ne_some_false _ _, rfl, ?_⟩
  rw [scanHandlers_eq_noChange]
  simp

/-- Witness for C10 at a concrete input. -/
theorem matchesException_never_false_witness :
    matchesException (some [ExcExpr.builtinExceptionRef "KeyError"]) none ≠ some false :=
  (matchesException_never_false (some [ExcExpr.builtinExceptionRef "KeyError"]) none []).1

/-- C5 counterexample: with a handler catching builtin `ValueError` and a raise
of builtin `TypeError`, `matchesException` returns `None` (unknown), not the
definite-false the claim states. -/
theorem matchesException_definite_false_counterexample :
    matchesException (some [ExcExpr.builtinExceptionRef "ValueError"])
        (some (ExcExpr.builtinExceptionRef "TypeError")) = none
      ∧ (none : Option Bool) ≠ some false := by
  exact ⟨by decide, by decide⟩

/-- C5 amended: `ValueError` vs `ValueError` is definite-true; `ValueError` vs
`TypeError` is unknown (`None`), never definite-false; a handler whose catch
expression is not a resolvable builtin exception reference yields unknown for
every raised exception, and the visit performs no rewrite for it. -/
theorem matchesException_tri_state (raised0 : Option ExcExpr) :
    matchesException (some [ExcExpr.builtinExceptionRef "ValueError"])
        (some (ExcExpr.builtinExceptionRef "ValueError")) = some true
      ∧ matchesException (some [ExcExpr.builtinExceptionRef "ValueError"])
          (some (ExcExpr.builtinExceptionRef "TypeError")) = none
      ∧ matchesException (some [ExcExpr.otherExc]) raised0 = none
      ∧ visitSequence (SeqParent.tryExceptParent [⟨some [ExcExpr.otherExc]⟩]) []
          [OStmt.raiseStmt raised0] = VisitOutcome.noChange := by
  refine ⟨by decide, by decide, ?_, ?_⟩
  · cases raised0 with
    | none => rfl
    | some r => cases r <;> rfl
  · have hs := scanHandlers_eq_noChange raised0 [⟨some [ExcExpr.otherExc]⟩]
    simp [visitSequence, onEnterStatementRaise, hs]

/-- Witness for C5's amended theorem at a concrete input. -/
theorem matchesException_tri_state_witness :
    matchesException (some [ExcExpr.otherExc])
        (some (ExcExpr.builtinExceptionRef "ValueError")) = none :=
  (matchesException_tri_state (some (ExcExpr.builtinExceptionRef "ValueError"))).2.2.1

/-- C9: when the tried block of a try/except consists of the raise statement
and some handler's catched types definitely match the raised type, the visit
ends in `noChange` — the handler-body splice behind the bare `return` of
line 90 never fires, no tree mutation happens and no change is signalled. -/
theorem ruleC_designed_noop (handlers : List ExceptionHandler)
    (raised : Option ExcExpr)
    (_hmatch : ∃ handler ∈ handlers,
      matchesException handler.exception_types raised = some true) :
    visitSequence (SeqParent.tryExceptParent handlers) [] [OStmt.raiseStmt raised]
      = VisitOutcome.noChange := by
  have hs := scanHandlers_eq_noChange raised handlers
  simp [visitSequence, onEnterStatementRaise, hs]

/-- Witness for C9 at a concrete input with a definitely matching handler. -/
theorem ruleC_designed_noop_witness :
    visitSequence
        (SeqParent.tryExceptParent [⟨some [ExcExpr.builtinExceptionRef "ValueError"]⟩])
        [] [OStmt.raiseStmt (some (ExcExpr.builtinExceptionRef "ValueError"))]
      = VisitOutcome.noChange :=
  ruleC_designed_noop _ _
    ⟨⟨some [ExcExpr.builtinExceptionRef "ValueError"]⟩, by simp, by decide⟩

/-- C3: a sequence `[s1, raise(E), s2, s3]` (with `s1` not itself a raise
statement, so the raise under scrutiny is the one visited) is rewritten in one
visit to `[s1, raise(E)]` with a signalled change and traversal restart; the
restarted pass on the rewritten sequence reports no further change, whatever
the sequence's grandparent is. -/
theorem raise_statement_truncation (s1 s2 s3 : OStmt) (r : Option ExcExpr)
    (gp : SeqParent) (h : s1.isStatementRaiseException = false) :
    visitSequence gp [] [s1, OStmt.raiseStmt r, s2, s3]
        = VisitOutcome.changed [s1, OStmt.raiseStmt r]
      ∧ visitSequence gp [] [s1, OStmt.raiseStmt r] = VisitOutcome.noChange := by
  cases s1 with
  | raiseStmt r0 => simp [OStmt.isStatementRaiseException] at h
  | otherStmt t => cases gp <;> exact ⟨rfl, rfl⟩

/-- Witness for C3 at a concrete input. -/
theorem raise_statement_truncation_witness :
    (OStmt.otherStmt 0).isStatementRaiseException = false
      ∧ (visitSequence SeqParent.otherParent []
            [OStmt.otherStmt 0, OStmt.raiseStmt none, OStmt.otherStmt 1, OStmt.otherStmt 2]
          = VisitOutcome.changed [OStmt.otherStmt 0, OStmt.raiseStmt none]
        ∧ visitSequence SeqParent.otherParent [] [OStmt.otherStmt 0, OStmt.raiseStmt none]
          = VisitOutcome.noChange) :=
  ⟨by decide,
    raise_statement_truncation (OStmt.otherStmt 0) (OStmt.otherStmt 1) (OStmt.otherStmt 2)
      none SeqParent.otherParent (by decide)⟩

/-- C4: `trimEvaluation` on `f(a, raise(E))` where `a` has a side effect
collapses the operation to the raising expression with `a` attached as a side
effect (evaluated before `E` is signalled) — never the bare raise; an operand
without side effects is not carried. -/
theorem trimEvaluation_preserves_side_effects (t : Nat) (n : String) :
    trimEvaluation [OExpr.operandExpr t true, OExpr.raiseExceptionExpr n []]
        = some (OExpr.raiseExceptionExpr n [OExpr.operandExpr t true])
      ∧ OExpr.raiseExceptionExpr n [OExpr.operandExpr t true]
        ≠ OExpr.raiseExceptionExpr n []
      ∧ trimEvaluation [OExpr.operandExpr t false, OExpr.raiseExceptionExpr n []]
        = some (OExpr.raiseExceptionExpr n []) := by
  exact ⟨rfl, by simp, rfl⟩

/-- Witness for C4 at a concrete input. -/
theorem trimEvaluation_preserves_side_effects_witness :
    trimEvaluation [OExpr.operandExpr 7 true, OExpr.raiseExceptionExpr "TypeError" []]
      = some (OExpr.raiseExceptionExpr "TypeError" [OExpr.operandExpr 7 true]) :=
  (trimEvaluation_preserves_side_effects 7 "TypeError").1

/-- C2 counterexample: for the private name `__x` at a node directly inside a
class body `C` (no intervening function body), `mangleAttributeName` returns
the name unmangled — not `_C__x` as the claim states; conversely, crossing a
function body before the class body is what makes it return the mangled name. -/
theorem mangleAttributeName_counterexample :
    mangleAttributeName "__x" [TreeAncestor.classBody "C"] = "__x"
      ∧ ("__x" : String) ≠ "_C__x"
      ∧ mangleAttributeName "__x" [TreeAncestor.functionBody, TreeAncestor.classBody "C"]
        = "_C__x" := by
  exact ⟨by decide, by decide, by decide⟩

/-- Helper: the mangling walk without any class body ancestor leaves the name
unchanged, whatever the `seen_function` flag. -/
theorem mangleWalk_no_class (attribute_name : String) (sf : Bool)
    (ancestors : List TreeAncestor)
    (h : ∀ a ∈ ancestors, a.isExpressionClassBody = false) :
    mangleWalk attribute_name sf ancestors = attribute_name := by
  induction ancestors generalizing sf with
  | nil => rfl
  | cons a rest ih =>
    cases a with
    | classBody c =>
      have := h (TreeAncestor.classBody c) (by simp)
      simp [TreeAncestor.isExpressionClassBody] at this
    | functionBody =>
      exact ih true (fun a ha => h a (by simp [ha]))
    | otherNode =>
      exact ih sf (fun a ha => h a (by simp [ha]))

/-- Helper: at the first class body of the ancestor walk, the result is mangled
exactly when the flag was already set or some earlier ancestor was a function
body. -/
theorem mangleWalk_first_class (attribute_name : String) (sf : Bool)
    (pre : List TreeAncestor) (c : String) (rest : List TreeAncestor)
    (hpre : ∀ a ∈ pre, a.isExpressionClassBody = false) :
    mangleWalk attribute_name sf (pre ++ TreeAncestor.classBody c :: rest)
      = if sf || pre.any TreeAncestor.isExpressionFunctionBody then
          "_" ++ c ++ attribute_name
        else attribute_name := by
  induction pre generalizing sf with
  | nil => simp [mangleWalk]
  | cons a pre0 ih =>
    cases a with
    | classBody c0 =>
      have := hpre (TreeAncestor.classBody c0) (by simp)
      simp [TreeAncestor.isExpressionClassBody] at this
    | functionBody =>
      have hrec := ih true (fun a ha => hpre a (by simp [ha]))
      simp [mangleWalk, hrec, TreeAncestor.isExpressionFunctionBody]
    | otherNode =>
      have hrec := ih sf (fun a ha => hpre a (by simp [ha]))
      simp [mangleWalk, hrec, TreeAncestor.isExpressionFunctionBody]

/-- C2 amended: for a private-pattern attribute name, the walk returns the name
unmangled when no class body encloses the node and also when the first
enclosing class body is reached without crossing a function body; it returns
the class-scoped mangled name `_<className><name>` exactly when a function
body is crossed before the first enclosing class body — the converse of the
claimed direction. -/
theorem mangleAttributeName_characterization (attribute_name : String)
    (ancestors : List TreeAncestor)
    (h1 : strStartsWith attribute_name "__" = true)
    (h2 : strEndsWith attribute_name "__" = false) :
    ((∀ a ∈ ancestors, a.isExpressionClassBody = false) →
        mangleAttributeName attribute_name ancestors = attribute_name)
      ∧ (∀ pre c rest, ancestors = pre ++ TreeAncestor.classBody c :: rest →
          (∀ a ∈ pre, a.isExpressionClassBody = false) →
          pre.any TreeAncestor.isExpressionFunctionBody = false →
          mangleAttributeName attribute_name ancestors = attribute_name)
      ∧ (∀ pre c rest, ancestors = pre ++ TreeAncestor.classBody c :: rest →
          (∀ a ∈ pre, a.isExpressionClassBody = false) →
          pre.any TreeAncestor.isExpressionFunctionBody = true →
          mangleAttributeName attribute_name ancestors = "_" ++ c ++ attribute_name) := by
  have hcond : (! strStartsWith attribute_name "__" || strEndsWith attribute_name "__")
      = false := by
    simp [h1, h2]
  refine ⟨?_, ?_, ?_⟩
  · intro hnone
    simp only [mangleAttributeName, hcond, Bool.false_eq_true, if_false]
    exact mangleWalk_no_class attribute_name false ancestors hnone
  · intro pre c rest heq hpre hany
    subst heq
    simp only [mangleAttributeName, hcond, Bool.false_eq_true, if_false]
    rw [mangleWalk_first_class attribute_name false pre c rest hpre]
    simp [hany]
  · intro pre c rest heq hpre hany
    subst heq
    simp only [mangleAttributeName, hcond, Bool.false_eq_true, if_false]
    rw [mangleWalk_first_class attribute_name false pre c rest hpre]
    simp [hany]

/-- Witness for C2's amended theorem at a concrete input. -/
theorem mangleAttributeName_characterization_witness :
    mangleAttributeName "__x" [TreeAncestor.functionBody, TreeAncestor.classBody "C"]
      = "_C__x" := by
  have h := (mangleAttributeName_characterization "__x"
      [TreeAncestor.functionBody, TreeAncestor.classBody "C"] (by decide) (by decide)).2.2
      [TreeAncestor.functionBody] "C" [] rfl (by decide) (by decide)
  rw [h]
  decide

/-- C1 counterexample: a set literal all of whose elements are immutable
constant references is still emitted through the element-by-element
`Generator.getSetCreationCode` call — `generateSetCreationCode` has no
constant-handle short-circuit. -/
theorem generateSetCreationCode_counterexample :
    _areConstants [CGExpr.constantRef (Constant.intConst 1) false] = true
      ∧ generateSetCreationCode [CGExpr.constantRef (Constant.intConst 1) false]
        = GenOutput.getSetCreationCode [CGExpr.constantRef (Constant.intConst 1) false]
      ∧ (generateSetCreationCode
          [CGExpr.constantRef (Constant.intConst 1) false]).isConstantHandle = false := by
  exact ⟨by decide, by decide, by decide⟩

/-- C1 amended: for tuple, list and dict literal nodes whose elements (keys and
values, for a dict) are all immutable constant references, generation emits
exactly one `Generator.getConstantHandle` call and no element-by-element
construction call, and conversely the element-by-element call when they are
not; a set literal node is always emitted element-by-element, never as a
constant handle. -/
theorem constantAggregateShortCircuit (elements : List CGExpr)
    (pairs : List (CGExpr × CGExpr)) :
    (_areConstants elements = true →
        generateTupleCreationCode elements
            = GenOutput.getConstantHandle
                (AggConstant.tupleConst (elements.map CGExpr.getConstant))
          ∧ generateListCreationCode elements
            = GenOutput.getConstantHandle
                (AggConstant.listConst (elements.map CGExpr.getConstant)))
      ∧ (_areConstants elements = false →
          generateTupleCreationCode elements = GenOutput.getTupleCreationCode elements
            ∧ generateListCreationCode elements = GenOutput.getListCreationCode elements)
      ∧ ((_areConstants (pairs.map Prod.fst) && _areConstants (pairs.map Prod.snd)) = true →
          (generateDictionaryCreationCode pairs).isConstantHandle = true)
      ∧ ((_areConstants (pairs.map Prod.fst) && _areConstants (pairs.map Prod.snd)) = false →
          generateDictionaryCreationCode pairs
            = GenOutput.getDictionaryCreationCode (pairs.map Prod.fst) (pairs.map Prod.snd))
      ∧ (generateSetCreationCode elements).isConstantHandle = false := by
  refine ⟨?_, ?_, ?_, ?_, rfl⟩ <;> intro h <;>
    simp [generateTupleCreationCode, generateListCreationCode,
      generateDictionaryCreationCode, GenOutput.isConstantHandle, h]

/-- Witness for C1's amended theorem at a concrete input. -/
theorem constantAggregateShortCircuit_witness :
    generateTupleCreationCode [CGExpr.constantRef (Constant.intConst 1) false]
      = GenOutput.getConstantHandle (AggConstant.tupleConst [Constant.intConst 1]) := by
  have h := (constantAggregateShortCircuit
      [CGExpr.constantRef (Constant.intConst 1) false] []).1 (by decide)
  rw [h.1]
  decide

/-- Helper: the per-bound test of `decideSlicing` holds exactly when the bound
is absent or a small integer constant. -/
theorem indexable_iff_smallIndexBound (b : Option SliceBound) :
    (match b with | none => true | some l => l.isIndexable) = true
      ↔ SmallIndexBound b := by
  cases b with
  | none => simp [SmallIndexBound]
  | some l =>
    cases l with
    | constantRef v =>
      cases v with
      | intConst n =>
        simp only [SliceBound.isIndexable, isSmallNumberConstant, isNumberConstant,
          pyInt, if_true, decide_eq_true_eq, SmallIndexBound]
        constructor
        · intro h
          exact Or.inr ⟨n, rfl, h⟩
        · rintro (h | ⟨m, hm, hlt⟩)
          · exact absurd h (by simp)
          · simp only [Option.some.injEq, SliceBound.constantRef.injEq,
              PySliceConst.intConst.injEq] at hm
            simpa [hm] using hlt
      | nonNumberConst =>
        simp [SliceBound.isIndexable, isSmallNumberConstant, isNumberConstant,
          SmallIndexBound]
    | otherBound =>
      simp [SliceBound.isIndexable, SmallIndexBound]

/-- C6: the indexed fast path `getSliceLookupIndexesCode` is chosen exactly
when native slicing is available and both bounds are absent or integer
constants of magnitude below `2^63 − 1`; in every other case the generic
`getSliceLookupCode` path is chosen when native slicing is available, and the
slice-object `getSubscriptLookupCode` path exactly when it is not. -/
theorem sliceLookupPathChoice (slicing_available : Bool)
    (lower upper : Option SliceBound) :
    (generateSliceLookupCode slicing_available lower upper
          = SliceEmission.getSliceLookupIndexesCode
        ↔ slicing_available = true ∧ SmallIndexBound lower ∧ SmallIndexBound upper)
      ∧ (generateSliceLookupCode slicing_available lower upper
          = SliceEmission.getSliceLookupCode
        ↔ slicing_available = true ∧ ¬(SmallIndexBound lower ∧ SmallIndexBound upper))
      ∧ (generateSliceLookupCode slicing_available lower upper
          = SliceEmission.getSubscriptLookupCode
        ↔ slicing_available = false) := by
  have hl := indexable_iff_smallIndexBound lower
  have hu := indexable_iff_smallIndexBound upper
  cases slicing_available with
  | false =>
    refine ⟨?_, ?_, ?_⟩ <;>
      simp [generateSliceLookupCode, decideSlicing]
  | true =>
    rcases hbl : (match lower with | none => true | some l => l.isIndexable) with _ | _ <;>
      rcases hbu : (match upper with | none => true | some u => u.isIndexable) with _ | _ <;>
      refine ⟨?_, ?_, ?_⟩ <;>
        simp [generateSliceLookupCode, decideSlicing, hbl, hbu, ← hl, ← hu]

/-- Witness for C6 at a concrete input: native slicing available, absent lower
bound, small constant upper bound selects the indexed fast path. -/
theorem sliceLookupPathChoice_witness :
    generateSliceLookupCode true none
        (some (SliceBound.constantRef (PySliceConst.intConst 5)))
      = SliceEmission.getSliceLookupIndexesCode :=
  (sliceLookupPathChoice true none
      (some (SliceBound.constantRef (PySliceConst.intConst 5)))).1.mpr
    ⟨rfl, Or.inl rfl, Or.inr ⟨5, rfl, by decide⟩⟩

/-- C7: `generateTryExceptCode` emits the compact inline fetch-or-branch fast
path exactly when the tried block is a single variable assignment from a
builtin `next1` whose iterated value cannot raise, there is exactly one
handler, it catches exactly the builtin exception reference named
`StopIteration`, and its branch is statement-terminal; every other try/except
goes through the generic path. -/
theorem tryExceptFastPathCharacterization (statement : TryExceptStmt) :
    generateTryExceptCode statement = TryExceptEmission.next1FastPath
      ↔ ∃ handler : TryHandler,
          statement.tried_statements
              = [TriedStmt.assignmentVariable (TryExpr.builtinNext1 false)]
            ∧ statement.handlers = [handler]
            ∧ handler.exception_types = [TryExpr.builtinExceptionRef "StopIteration"]
            ∧ handler.branch_is_abortative = true := by
  obtain ⟨tried, handlers⟩ := statement
  constructor
  · intro h
    rcases tried with _ | ⟨t1, _ | ⟨t2, trest⟩⟩
    · simp [generateTryExceptCode] at h
    · rcases t1 with src | tg
      · rcases src with vmr | en | _
        · rcases vmr with _ | _
          · rcases handlers with _ | ⟨h1, _ | ⟨h2, hrest⟩⟩
            · simp [generateTryExceptCode] at h
            · rcases h1 with ⟨ets, ba⟩
              rcases ets with _ | ⟨et1, _ | ⟨et2, etrest⟩⟩
              · simp [generateTryExceptCode] at h
              · rcases et1 with _ | en | _
                · simp [generateTryExceptCode] at h
                · rcases hname : (en == "StopIteration") with _ | _
                  · simp [generateTryExceptCode, hname] at h
                  · rcases ba with _ | _
                    · simp [generateTryExceptCode, hname] at h
                    · have hen : en = "StopIteration" := by
                        exact eq_of_beq hname
                      subst hen
                      exact ⟨⟨[TryExpr.builtinExceptionRef "StopIteration"], true⟩,
                        rfl, rfl, rfl, rfl⟩
                · simp [generateTryExceptCode] at h
              · simp [generateTryExceptCode] at h
            · simp [generateTryExceptCode] at h
          · simp [generateTryExceptCode] at h
        · simp [generateTryExceptCode] at h
        · simp [generateTryExceptCode] at h
      · simp [generateTryExceptCode] at h
    · simp [generateTryExceptCode] at h
  · rintro ⟨handler, h1, h2, h3, h4⟩
    obtain ⟨ets, ba⟩ := handler
    simp only at h1 h2
    subst h1 h2
    simp only [TryHandler.mk.injEq] at h3 h4
    subst h3 h4
    simp [generateTryExceptCode]

/-- Witness for C7 at the concrete fast-path shape. -/
theorem tryExceptFastPathCharacterization_witness :
    generateTryExceptCode
        ⟨[TriedStmt.assignmentVariable (TryExpr.builtinNext1 false)],
          [⟨[TryExpr.builtinExceptionRef "StopIteration"], true⟩]⟩
      = TryExceptEmission.next1FastPath :=
  (tryExceptFastPathCharacterization
      ⟨[TriedStmt.assignmentVariable (TryExpr.builtinNext1 false)],
        [⟨[TryExpr.builtinExceptionRef "StopIteration"], true⟩]⟩).mpr
    ⟨⟨[TryExpr.builtinExceptionRef "StopIteration"], true⟩, rfl, rfl, rfl, rfl⟩

/-- C8 counterexample: a statement whose generated code spans three lines with
a blank interior line passes both assembly assertions (which inspect only the
first and the last split line), so the returned code sequence contains the
empty string as an element. -/
theorem statementSequence_blank_counterexample :
    generateStatementSequenceCode (fun _ => "") none
        [⟨"x = 1;\n\ny = 2;", 1⟩]
      = some ["x = 1;", "", "y = 2;"] := by
  decide

/-- Helper: `String.mk` of a string's character list is the string itself. -/
theorem strMk_data (s : String) : String.mk s.data = s := by
  cases s
  rfl

/-- Helper: string append concatenates the character lists. -/
theorem strAppend_data (a b : String) : (a ++ b).data = a.data ++ b.data := by
  cases a
  cases b
  rfl

/-- Helper: splitting a newline-free character list yields just that list. -/
theorem splitLinesList_no_nl (cs : List Char) (h : nlChar ∉ cs) :
    splitLinesList cs = [cs] := by
  induction cs with
  | nil => rfl
  | cons c rest ih =>
    have hc : ¬ c = nlChar := fun hc => h (by simp [hc])
    have hrest : nlChar ∉ rest := fun hm => h (by simp [hm])
    simp [splitLinesList, hc, ih hrest]

/-- Helper: splitting a newline-free string yields just that string. -/
theorem splitLines_no_nl (s : String) (h : nlChar ∉ s.data) :
    splitLines s = [s] := by
  simp [splitLines, splitLinesList_no_nl s.data h, strMk_data]

/-- C8 amended: the assembly assertions guarantee that the first and last line
of each statement's code are non-blank, and that whole statement codes carry
no leading/trailing whitespace; they do not constrain interior lines.  In
particular, when no statement code and no line-number prefix contains a
newline, every element of the returned code sequence is a non-blank line. -/
theorem statementSequence_single_line_nonblank (lineNumberCode : Nat → String)
    (hline : ∀ n : Nat, nlChar ∉ (lineNumberCode n).data) :
    ∀ (stmts : List GenStmt), (∀ s ∈ stmts, nlChar ∉ s.code.data) →
      ∀ (last_ref : Option Nat) (codes : List String),
        generateStatementSequenceCode lineNumberCode last_ref stmts = some codes →
        ∀ c ∈ codes, isBlankLine c = false := by
  intro stmts
  induction stmts with
  | nil =>
    intro _ last_ref codes hres c hc
    simp only [generateStatementSequenceCode, Option.some.injEq] at hres
    subst hres
    simp at hc
  | cons s rest ih =>
    intro hst last_ref codes hres c hc
    have hs : nlChar ∉ s.code.data := hst s (by simp)
    have hrest : ∀ t ∈ rest, nlChar ∉ t.code.data := fun t ht => hst t (by simp [ht])
    have hfull : nlChar ∉ (statementFullCode lineNumberCode last_ref s).data := by
      unfold statementFullCode
      split
      · rw [strAppend_data]
        intro hmem
        rcases List.mem_append.1 hmem with hmem | hmem
        · exact hline s.source_line hmem
        · exact hs hmem
      · exact hs
    have hsplit : splitLines (statementFullCode lineNumberCode last_ref s)
        = [statementFullCode lineNumberCode last_ref s] :=
      splitLines_no_nl _ hfull
    rw [generateStatementSequenceCode] at hres
    by_cases h1 : pyStrip s.code ≠ s.code
    · rw [if_pos h1] at hres
      exact absurd hres (by simp)
    · rw [if_neg h1] at hres
      by_cases h2 : s.code = ""
      · rw [if_pos h2] at hres
        exact ih hrest last_ref codes hres c hc
      · rw [if_neg h2, hsplit] at hres
        have hgl : ([statementFullCode lineNumberCode last_ref s].getLastD "")
            = statementFullCode lineNumberCode last_ref s := rfl
        simp only [List.headD_cons, hgl] at hres
        by_cases h3 : isBlankLine (statementFullCode lineNumberCode last_ref s) = true
        · rw [if_pos h3] at hres
          exact absurd hres (by simp)
        · rw [if_neg h3, if_neg h3] at hres
          rcases hrec : generateStatementSequenceCode lineNumberCode
              (some s.source_line) rest with _ | codes0
          · rw [hrec] at hres
            exact absurd hres (by simp [appendStatementCodes])
          · rw [hrec] at hres
            simp only [appendStatementCodes, Option.some.injEq] at hres
            subst hres
            rcases List.mem_cons.1 hc with hceq | hmem
            · exact Bool.eq_false_iff.mpr fun hb => h3 (by simpa [hceq] using hb)
            · exact ih hrest (some s.source_line) codes0 hrec c hmem

/-- Witness for C8's amended theorem at a concrete single-line input. -/
theorem statementSequence_single_line_nonblank_witness :
    isBlankLine "L;x = 1;" = false := by
  have h := statementSequence_single_line_nonblank (fun _ => "L;")
      (fun n => by show nlChar ∉ ("L;").data; decide)
      [⟨"x = 1;", 1⟩] (by decide) none ["L;x = 1;"] (by decide)
  exact h "L;x = 1;" (by simp)
